import Mathlib

/-!
Verification of the coherence-scoring backend.

Shallow embedding of the scoring, flag-normalisation, synthesis,
result-assembly and status-update logic found in:
  - `src/backend/app/services/twelvelabs_service.py`
  - `src/backend/preprocess_samples.py`
  - `src/backend/gemini/synthesis.py`
  - `src/backend/app/services/video_service.py`
Python numbers are modelled as rationals (`ℚ`) where the source works on
floats/dict values, and as integers (`ℤ`) where the source signature is
`int`.  Python's `int(x)` conversion truncates toward zero; it is modelled
by `pytrunc`.
-/

namespace Coherence

/-- Python `int(x)`: truncation of a rational toward zero. -/
def pytrunc (q : ℚ) : ℤ := if 0 ≤ q then ⌊q⌋ else ⌈q⌉

/-- Severity levels of `Severity` in `app/models/schemas.py`. -/
inductive Severity where
  | high
  | medium
  | low
deriving DecidableEq, Repr

/-- Dissonance types of `DissonanceType` in `app/models/schemas.py`. -/
inductive DissonanceType where
  | emotionalMismatch
  | missingGesture
  | pacingMismatch
deriving DecidableEq, Repr

/-! ## Coherence scorer, `twelvelabs_service.py` (`calculate_coherence_score`)

The metrics arrive in a `dict` and may be any numbers; they are modelled
as rationals.  A flag only contributes through `flag.get("severity", "LOW")`,
so a flag list is modelled as a list of severity strings. -/

/-- `eye_score = (eye_contact / 100) * 30`. -/
def tlEyeScore (eye : ℚ) : ℚ := eye / 100 * 30

/-- `filler_score = max(0, (20 - filler_words) / 20) * 25`. -/
def tlFillerScore (f : ℚ) : ℚ := max 0 ((20 - f) / 20) * 25

/-- `fidget_score = max(0, (15 - fidgeting) / 15) * 20`. -/
def tlFidgetScore (g : ℚ) : ℚ := max 0 ((15 - g) / 15) * 20

/-- The pace band of `calculate_coherence_score` in `twelvelabs_service.py`. -/
def tlPaceScore (p : ℚ) : ℚ :=
  if 140 ≤ p ∧ p ≤ 160 then 15
  else if 120 ≤ p ∧ p ≤ 180 then 10
  else if 100 ≤ p ∧ p ≤ 200 then 5
  else 0

/-- Penalty of one flag: 10 for `"HIGH"`, 5 for `"MEDIUM"`, else 2. -/
def tlSeverityPenalty (s : String) : ℚ :=
  if s = "HIGH" then 10 else if s = "MEDIUM" then 5 else 2

/-- Sum of the per-flag penalties. -/
def tlPenalty (flags : List String) : ℚ := (flags.map tlSeverityPenalty).sum

/-- `calculate_coherence_score` of `twelvelabs_service.py`:
`int(max(0, min(100, base_score - penalty)))`. -/
def tl_calculate_coherence_score (eye f g p : ℚ) (flags : List String) : ℤ :=
  pytrunc (max 0 (min 100
    (tlEyeScore eye + tlFillerScore f + tlFidgetScore g + tlPaceScore p
      - tlPenalty flags)))

/-! ## Coherence scorer, `gemini/synthesis.py` (`calculate_coherence_score`)

All five inputs are typed `int` in the source. -/

/-- `eye_score = min(30, int((eye_contact_pct / 100) * 30))`. -/
def gemEyeScore (eye : ℤ) : ℤ := min 30 (pytrunc ((eye : ℚ) / 100 * 30))

/-- The filler branch of `synthesis.calculate_coherence_score`. -/
def gemFillerScore (f : ℤ) : ℤ :=
  if f ≤ 5 then 25
  else if 20 ≤ f then 0
  else max 0 (pytrunc ((20 - (f : ℚ)) / 15 * 25))

/-- The fidget branch of `synthesis.calculate_coherence_score`. -/
def gemFidgetScore (g : ℤ) : ℤ :=
  if g ≤ 3 then 20
  else if 15 ≤ g then 0
  else max 0 (pytrunc ((15 - (g : ℚ)) / 12 * 20))

/-- The pace branch of `synthesis.calculate_coherence_score`. -/
def gemPaceScore (p : ℤ) : ℤ :=
  if 140 ≤ p ∧ p ≤ 160 then 15
  else if 120 ≤ p ∧ p < 140 then 10 + pytrunc (((p : ℚ) - 120) / 20 * 5)
  else if 160 < p ∧ p ≤ 180 then 15 - pytrunc (((p : ℚ) - 160) / 20 * 5)
  else if p < 120 then max 0 (pytrunc ((p : ℚ) / 120 * 10))
  else max 0 (10 - pytrunc (((p : ℚ) - 180) / 20 * 10))

/-- `synthesis.calculate_coherence_score`, total score only:
`max(0, min(100, eye + filler + fidget + pace + critical_flag_count * -10))`. -/
def gem_calculate_coherence_score (eye f g p crit : ℤ) : ℤ :=
  max 0 (min 100
    (gemEyeScore eye + gemFillerScore f + gemFidgetScore g + gemPaceScore p
      + crit * (-10)))

/-! ## Coherence scorer, `preprocess_samples.py` (`_calculate_score`)

`AnalysisMetrics` fields are `int`-typed (pydantic `int` fields). -/

/-- `eye_score = min(30, int((metrics.eyeContact / 100) * 30))`. -/
def ppEyeScore (eye : ℤ) : ℤ := min 30 (pytrunc ((eye : ℚ) / 100 * 30))

/-- The filler branch of `_calculate_score`. -/
def ppFillerScore (f : ℤ) : ℤ :=
  if f ≤ 5 then 25
  else if 20 ≤ f then 0
  else max 0 (pytrunc ((20 - (f : ℚ)) / 15 * 25))

/-- The fidget branch of `_calculate_score`. -/
def ppFidgetScore (g : ℤ) : ℤ :=
  if g ≤ 3 then 20
  else if 15 ≤ g then 0
  else max 0 (pytrunc ((15 - (g : ℚ)) / 12 * 20))

/-- The pace branch of `_calculate_score`. -/
def ppPaceScore (p : ℤ) : ℤ :=
  if 140 ≤ p ∧ p ≤ 160 then 15
  else if (120 ≤ p ∧ p < 140) ∨ (160 < p ∧ p ≤ 180) then 10
  else 5

/-- `penalty = high_flags * 10 + medium_flags * 5` over the flag severities. -/
def ppPenalty (sevs : List Severity) : ℤ :=
  (sevs.filter (· = Severity.high)).length * 10
    + (sevs.filter (· = Severity.medium)).length * 5

/-- `_calculate_score` of `preprocess_samples.py`:
`max(0, min(100, total))`. -/
def pp_calculate_score (eye f g p : ℤ) (sevs : List Severity) : ℤ :=
  max 0 (min 100
    (ppEyeScore eye + ppFillerScore f + ppFidgetScore g + ppPaceScore p
      - ppPenalty sevs))

/-! ## Canonical data model (`app/models/schemas.py`) -/

/-- `DissonanceFlag` of `app/models/schemas.py`. -/
structure DissonanceFlag where
  id : String
  timestamp : ℚ
  endTimestamp : Option ℚ
  type : DissonanceType
  severity : Severity
  description : String
  coaching : String
  visualEvidence : Option String
  verbalEvidence : Option String
deriving DecidableEq, Repr

/-- `TimelinePoint` of `app/models/schemas.py`. -/
structure TimelinePoint where
  timestamp : ℚ
  severity : Severity
deriving DecidableEq, Repr

/-- `AnalysisMetrics` of `app/models/schemas.py` (all counts `int`-typed). -/
structure AnalysisMetrics where
  eyeContact : ℤ
  fillerWords : ℤ
  fidgeting : ℤ
  speakingPace : ℤ
  speakingPaceTarget : String
deriving DecidableEq, Repr

/-- A raw issue item from the upstream visual service (a loosely-typed
dict); one optional field per dict key the two flag normalizers read. -/
structure RawFlag where
  idKey : Option String
  timestampSeconds : Option ℚ
  timestampKey : Option ℚ
  endTimestampSeconds : Option ℚ
  endTimestampCamel : Option ℚ
  endTimestampSnake : Option ℚ
  typeKey : Option String
  severityKey : Option String
  descriptionKey : Option String
  coachingKey : Option String
  coachingTip : Option String
  visualEvidenceCamel : Option String
  visualEvidenceSnake : Option String
  verbalEvidenceCamel : Option String
  verbalEvidenceSnake : Option String
deriving DecidableEq, Repr

/-- A raw item carrying none of the keys. -/
def emptyRawFlag : RawFlag :=
  { idKey := none, timestampSeconds := none, timestampKey := none,
    endTimestampSeconds := none, endTimestampCamel := none,
    endTimestampSnake := none, typeKey := none, severityKey := none,
    descriptionKey := none, coachingKey := none, coachingTip := none,
    visualEvidenceCamel := none, visualEvidenceSnake := none,
    verbalEvidenceCamel := none, verbalEvidenceSnake := none }

/-- `DissonanceType(s)`: `some` on a valid enum value, `none` where the
Python constructor raises `ValueError`. -/
def parseDissonanceType (s : String) : Option DissonanceType :=
  if s = "EMOTIONAL_MISMATCH" then some DissonanceType.emotionalMismatch
  else if s = "MISSING_GESTURE" then some DissonanceType.missingGesture
  else if s = "PACING_MISMATCH" then some DissonanceType.pacingMismatch
  else none

/-- `Severity(s)`: `some` on a valid enum value, `none` where the Python
constructor raises `ValueError`. -/
def parseSeverity (s : String) : Option Severity :=
  if s = "HIGH" then some Severity.high
  else if s = "MEDIUM" then some Severity.medium
  else if s = "LOW" then some Severity.low
  else none

/-- Python truthiness on an optional number (`x or y`, `if x`): `None` and
`0` are falsy. -/
def truthyQ (o : Option ℚ) : Option ℚ :=
  o.bind (fun x => if x = 0 then none else some x)

/-- Python truthiness on an optional string: `None` and `""` are falsy. -/
def truthyS (o : Option String) : Option String :=
  o.bind (fun s => if s = "" then none else some s)

/-! ## Flag conversion, `video_service.py` (`_convert_analysis_to_result`) -/

/-- One iteration of the flag loop in `_convert_analysis_to_result`:
defaults an unknown `type` to `EMOTIONAL_MISMATCH` and an unknown
`severity` to `MEDIUM`; never drops the item. -/
def vsConvertOne (i : ℕ) (f : RawFlag) : DissonanceFlag :=
  { id := "flag-" ++ toString (i + 1)
    timestamp := f.timestampSeconds.getD ((i : ℚ) * 30)
    endTimestamp := truthyQ f.endTimestampSeconds
    type := (parseDissonanceType (f.typeKey.getD "EMOTIONAL_MISMATCH")).getD
      DissonanceType.emotionalMismatch
    severity := (parseSeverity (f.severityKey.getD "MEDIUM")).getD Severity.medium
    description := f.descriptionKey.getD "Issue detected"
    coaching := f.coachingKey.getD "Review this section of your presentation"
    visualEvidence := f.visualEvidenceSnake
    verbalEvidence := f.verbalEvidenceSnake }

/-- The full flag loop of `_convert_analysis_to_result`: one converted flag
per raw item, without any cap. -/
def vsConvertFlags (raws : List RawFlag) : List DissonanceFlag :=
  raws.enum.map (fun p => vsConvertOne p.1 p.2)

/-- `timeline_points.sort(key=lambda p: p.timestamp)` — a stable sort by
timestamp, modelled by insertion sort. -/
def sortTimeline (points : List TimelinePoint) : List TimelinePoint :=
  List.insertionSort (fun a b => a.timestamp ≤ b.timestamp) points

/-- The `timelineHeatmap` assembled by `_convert_analysis_to_result`: the
per-flag `(timestamp, severity)` points, sorted by timestamp. -/
def vsTimelineHeatmap (raws : List RawFlag) : List TimelinePoint :=
  sortTimeline ((vsConvertFlags raws).map
    (fun fl => { timestamp := fl.timestamp, severity := fl.severity }))

/-! ## Flag extraction, `preprocess_samples.py` (`_extract_flags`) -/

/-- `timestamp = f.get("timestamp_seconds") or f.get("timestamp") or 0`. -/
def ppTimestamp (f : RawFlag) : ℚ :=
  match truthyQ f.timestampSeconds with
  | some x => x
  | none => (truthyQ f.timestampKey).getD 0

/-- `end_timestamp = f.get("end_timestamp_seconds") or f.get("endTimestamp")
or f.get("end_timestamp")`, then `float(e) if e else None`. -/
def ppEndTimestamp (f : RawFlag) : Option ℚ :=
  match truthyQ f.endTimestampSeconds with
  | some x => some x
  | none =>
    match truthyQ f.endTimestampCamel with
    | some x => some x
    | none => truthyQ f.endTimestampSnake

/-- One iteration of the `try` body in `_extract_flags`: `none` exactly
where `DissonanceType(...)` or `Severity(...)` raises, in which case the
`except` branch logs a warning and drops the item. -/
def ppParseFlag (i : ℕ) (f : RawFlag) : Option DissonanceFlag :=
  match parseDissonanceType (f.typeKey.getD "EMOTIONAL_MISMATCH"),
      parseSeverity (f.severityKey.getD "MEDIUM") with
  | some t, some sv =>
    some { id := f.idKey.getD ("flag-" ++ toString (i + 1))
           timestamp := ppTimestamp f
           endTimestamp := ppEndTimestamp f
           type := t
           severity := sv
           description := f.descriptionKey.getD ""
           coaching := f.coachingKey.getD (f.coachingTip.getD "")
           visualEvidence :=
             match truthyS f.visualEvidenceCamel with
             | some x => some x
             | none => f.visualEvidenceSnake
           verbalEvidence :=
             match truthyS f.verbalEvidenceCamel with
             | some x => some x
             | none => f.verbalEvidenceSnake }
  | _, _ => none

/-- `_extract_flags`: iterates over `raw_flags[:10]` and keeps the items
whose enum fields parse. -/
def ppExtractFlags (raws : List RawFlag) : List DissonanceFlag :=
  (raws.take 10).enum.filterMap (fun p => ppParseFlag p.1 p.2)

/-- `_create_timeline` of `preprocess_samples.py` (`duration` is unused in
the source as well). -/
def createTimeline (flags : List DissonanceFlag) (duration : ℚ) :
    List TimelinePoint :=
  sortTimeline (flags.map
    (fun fl => { timestamp := fl.timestamp, severity := fl.severity }))

/-! ## Coaching-flag synthesis, `preprocess_samples.py`
(`_generate_coaching_flags_from_metrics`) -/

/-- The eye-contact coaching flag, threshold `eyeContact < 90`. -/
def eyeCoachingFlag (m : AnalysisMetrics) (duration : ℚ) (n : ℕ) :
    DissonanceFlag :=
  { id := "metric-flag-" ++ toString n
    timestamp := duration * (25 / 100)
    endTimestamp := none
    type := DissonanceType.emotionalMismatch
    severity :=
      if 70 ≤ m.eyeContact then Severity.low
      else if 50 ≤ m.eyeContact then Severity.medium
      else Severity.high
    description := "Eye contact could be stronger. Try looking directly at the camera more consistently."
    coaching := "Practice the \x27triangle method\x27: look at your camera, then left of frame, then right, and back to camera. This creates natural eye movement while maintaining engagement."
    visualEvidence := some "Eye contact analysis throughout video"
    verbalEvidence := none }

/-- The filler-word coaching flag, threshold `fillerWords > 3`. -/
def fillerCoachingFlag (m : AnalysisMetrics) (duration : ℚ) (n : ℕ) :
    DissonanceFlag :=
  { id := "metric-flag-" ++ toString n
    timestamp := duration * (4 / 10)
    endTimestamp := none
    type := DissonanceType.pacingMismatch
    severity :=
      if m.fillerWords ≤ 5 then Severity.low
      else if m.fillerWords ≤ 10 then Severity.medium
      else Severity.high
    description := "Detected filler words like \x27um\x27, \x27uh\x27, or \x27like\x27. These can distract from your message."
    coaching := "Try the \x27pause and breathe\x27 technique: when you feel a filler word coming, pause briefly and take a breath instead. Silence is more powerful than fillers."
    visualEvidence := none
    verbalEvidence := some "Filler word detection throughout audio" }

/-- The fidgeting coaching flag, threshold `fidgeting > 2`. -/
def fidgetCoachingFlag (m : AnalysisMetrics) (duration : ℚ) (n : ℕ) :
    DissonanceFlag :=
  { id := "metric-flag-" ++ toString n
    timestamp := duration * (5 / 10)
    endTimestamp := none
    type := DissonanceType.missingGesture
    severity :=
      if m.fidgeting ≤ 3 then Severity.low
      else if m.fidgeting ≤ 6 then Severity.medium
      else Severity.high
    description := "Nervous movements detected. This can signal anxiety to your audience."
    coaching := "Ground yourself: before starting, plant your feet firmly and keep your hands visible. If you need to move, make it purposeful - step toward your audience or gesture to emphasize points."
    visualEvidence := some "Body language analysis throughout video"
    verbalEvidence := none }

/-- The speaking-pace coaching flag, threshold `pace < 130 or pace > 170`. -/
def paceCoachingFlag (m : AnalysisMetrics) (duration : ℚ) (n : ℕ) :
    DissonanceFlag :=
  { id := "metric-flag-" ++ toString n
    timestamp := duration * (6 / 10)
    endTimestamp := none
    type := DissonanceType.pacingMismatch
    severity :=
      if m.speakingPace < 130 then
        (if 110 ≤ m.speakingPace then Severity.low else Severity.medium)
      else
        (if m.speakingPace ≤ 180 then Severity.low else Severity.medium)
    description :=
      if m.speakingPace < 130 then
        "Your speaking pace is slower than optimal. This might cause the audience to lose engagement."
      else
        "Your speaking pace is faster than optimal. The audience may struggle to follow."
    coaching :=
      if m.speakingPace < 130 then
        "Try practicing with slightly more energy. Imagine you\x27re telling an exciting story to a friend. Varying your pace keeps audiences engaged."
      else
        "Practice the \x27headline pause\x27 technique: after each key point, pause for 1-2 seconds. This lets your message sink in and naturally slows your pace."
    visualEvidence := none
    verbalEvidence := some ("Speaking pace analysis: " ++ toString m.speakingPace
      ++ " WPM (optimal: 140-160 WPM)") }

/-- The positive coaching flag synthesized when no threshold is crossed,
placed at 30% of the duration. -/
def positiveCoachingFlag (duration : ℚ) (n : ℕ) : DissonanceFlag :=
  { id := "metric-flag-" ++ toString n
    timestamp := duration * (3 / 10)
    endTimestamp := none
    type := DissonanceType.emotionalMismatch
    severity := Severity.low
    description := "Great presentation! Here\x27s a tip to make it even better: vary your vocal tone for emphasis."
    coaching := "Try the \x27word emphasis\x27 technique: identify 2-3 key words in each sentence and emphasize them with slight volume or pitch changes. This adds natural energy and highlights your main points."
    visualEvidence := some "Overall presentation quality assessment"
    verbalEvidence := some "Voice analysis throughout audio" }

/-- The four threshold-driven appends of
`_generate_coaching_flags_from_metrics`, with the running `flag_id`. -/
def coachingFlagsBase (m : AnalysisMetrics) (duration : ℚ) :
    List DissonanceFlag :=
  let l1 := if m.eyeContact < 90 then [eyeCoachingFlag m duration 1] else []
  let l2 := l1 ++ (if 3 < m.fillerWords then
    [fillerCoachingFlag m duration (l1.length + 1)] else [])
  let l3 := l2 ++ (if 2 < m.fidgeting then
    [fidgetCoachingFlag m duration (l2.length + 1)] else [])
  l3 ++ (if m.speakingPace < 130 ∨ 170 < m.speakingPace then
    [paceCoachingFlag m duration (l3.length + 1)] else [])

/-- `_generate_coaching_flags_from_metrics`: the threshold flags, or the
single positive flag when none was generated. -/
def generateCoachingFlags (m : AnalysisMetrics) (duration : ℚ) :
    List DissonanceFlag :=
  let flags := coachingFlagsBase m duration
  if flags = [] then [positiveCoachingFlag duration 1] else flags

/-! ## Mock result, `video_service.py` (`_generate_mock_result`) -/

/-- The hand-written `dissonanceFlags` of `_generate_mock_result`. -/
def mockDissonanceFlags : List DissonanceFlag :=
  [ { id := "flag-1", timestamp := 452 / 10, endTimestamp := some 48,
      type := DissonanceType.emotionalMismatch, severity := Severity.high,
      description := "Said \"thrilled to present\" but facial expression showed anxiety",
      coaching := "Practice saying this line while smiling in a mirror. Your face should match your excitement.",
      visualEvidence := some "TwelveLabs: \"person looking anxious\" at 0:43-0:48",
      verbalEvidence := some "Deepgram: \"thrilled\" (positive sentiment)" },
    { id := "flag-2", timestamp := 835 / 10, endTimestamp := none,
      type := DissonanceType.missingGesture, severity := Severity.medium,
      description := "Said \"look at this data\" without pointing at screen",
      coaching := "When referencing visuals, physically point to anchor audience attention.",
      visualEvidence := none,
      verbalEvidence := some "Deepgram: deictic phrase \"this data\" detected" },
    { id := "flag-3", timestamp := 1358 / 10, endTimestamp := some (1498 / 10),
      type := DissonanceType.pacingMismatch, severity := Severity.high,
      description := "Slide 4 contains 127 words but only shown for 14 seconds",
      coaching := "Either reduce slide text to <50 words or extend explanation to ~45 seconds.",
      visualEvidence := none, verbalEvidence := none } ]

/-- The hand-written `timelineHeatmap` of `_generate_mock_result`. -/
def mockTimelineHeatmap : List TimelinePoint :=
  [ { timestamp := 12, severity := Severity.low },
    { timestamp := 45, severity := Severity.high },
    { timestamp := 83, severity := Severity.medium },
    { timestamp := 135, severity := Severity.high } ]

/-! ## Status records, `video_service.py` -/

/-- `ProcessingStatus` of `app/models/schemas.py`. -/
inductive ProcessingStatus where
  | queued
  | processing
  | complete
  | error
deriving DecidableEq, Repr

/-- The `StatusResponse` fields that the status writes populate. -/
structure StatusResponse where
  videoId : String
  status : ProcessingStatus
  progress : ℤ
  stage : String
  etaSeconds : Option ℤ
  error : Option String
deriving DecidableEq, Repr

/-- `_update_status` of `video_service.py`. -/
def update_status (videoId : String) (progress : ℤ) (stage : String)
    (eta : Option ℤ) : StatusResponse :=
  { videoId := videoId
    status := if progress < 100 then ProcessingStatus.processing
      else ProcessingStatus.complete
    progress := progress
    stage := stage
    etaSeconds := eta
    error := none }

/-- The three kinds of writes `_process_video` makes to `_status_storage`:
the missing-metadata guard, the checkpoint updates through
`_update_status`, and the top-level exception handler. -/
inductive ProcessVideoWrite where
  | metadataMissing (videoId : String)
  | stageUpdate (videoId : String) (progress : ℤ) (stage : String)
      (eta : Option ℤ)
  | exceptionCaught (videoId : String) (message : String)

/-- The status record each kind of write stores. -/
def processVideoWrite : ProcessVideoWrite → StatusResponse
  | ProcessVideoWrite.metadataMissing v =>
    { videoId := v, status := ProcessingStatus.error, progress := 0,
      stage := "Video not found", etaSeconds := none,
      error := some "Video metadata not found" }
  | ProcessVideoWrite.stageUpdate v p s e => update_status v p s e
  | ProcessVideoWrite.exceptionCaught v msg =>
    { videoId := v, status := ProcessingStatus.error, progress := 0,
      stage := "Processing failed", etaSeconds := none, error := some msg }

/-- The `(progress, stage)` pair of every `_update_status` call site in
`video_service.py`. -/
def updateStatusCallSites : List (ℤ × String) :=
  [ (10, "Preparing video..."),
    (30, "Analyzing content..."),
    (60, "Detecting patterns..."),
    (85, "Generating insights..."),
    (5, "Starting analysis..."),
    (15, "Uploading to TwelveLabs..."),
    (30, "Analyzing video content..."),
    (40, "Validating video..."),
    (10, "Transcribing speech & analyzing video..."),
    (70, "Merging analysis results..."),
    (80, "Generating insights..."),
    (80, "Generating insights from speech..."),
    (90, "Generating comprehensive coaching report..."),
    (100, "Analysis complete!") ]

/-- The claimed flag invariant: `endTimestamp`, when present, is at least
`timestamp`. -/
def flagEndOk (fl : DissonanceFlag) : Prop :=
  ∀ e ∈ fl.endTimestamp, fl.timestamp ≤ e

/-- A raw issue item whose `type` and `severity` are not valid enum
values. -/
def badEnumRaw : RawFlag :=
  { emptyRawFlag with
    typeKey := some "SARCASM_DETECTED"
    severityKey := some "CRITICAL" }

/-- A raw issue item whose end timestamp precedes its start timestamp. -/
def invertedSpanRaw : RawFlag :=
  { emptyRawFlag with
    timestampSeconds := some 10
    endTimestampSeconds := some 5 }

instance timelinePointLeTotal :
    IsTotal TimelinePoint (fun a b => a.timestamp ≤ b.timestamp) :=
  ⟨fun a b => le_total a.timestamp b.timestamp⟩

instance timelinePointLeTrans :
    IsTrans TimelinePoint (fun a b => a.timestamp ≤ b.timestamp) :=
  ⟨fun _ _ _ hab hbc => le_trans hab hbc⟩


theorem pytrunc_mono {q r : ℚ} (h : q ≤ r) : pytrunc q ≤ pytrunc r := by
  unfold pytrunc
  split_ifs with hq hr hr
  · exact Int.floor_le_floor h
  · exact absurd (le_trans hq h) hr
  · calc ⌈q⌉ ≤ ⌈(0 : ℚ)⌉ := Int.ceil_le_ceil (le_of_not_le hq)
      _ = 0 := by norm_num
      _ ≤ ⌊r⌋ := Int.floor_nonneg.mpr hr
  · exact Int.ceil_le_ceil h

theorem pytrunc_nonneg {q : ℚ} (h : 0 ≤ q) : 0 ≤ pytrunc q := by
  unfold pytrunc
  rw [if_pos h]
  exact Int.floor_nonneg.mpr h

theorem pytrunc_le_of_le {q : ℚ} {n : ℤ} (h : q ≤ n) : pytrunc q ≤ n := by
  unfold pytrunc
  split_ifs with hq
  · calc ⌊q⌋ ≤ ⌊(n : ℚ)⌋ := Int.floor_le_floor h
      _ = n := Int.floor_intCast n
  · exact Int.ceil_le.mpr h

theorem pytrunc_intCast (n : ℤ) : pytrunc (n : ℚ) = n := by
  unfold pytrunc
  split_ifs with h
  · exact Int.floor_intCast n
  · exact Int.ceil_intCast n

/-! ### C1: score bounds -/

theorem tl_score_bounds (eye f g p : ℚ) (flags : List String) :
    0 ≤ tl_calculate_coherence_score eye f g p flags ∧
      tl_calculate_coherence_score eye f g p flags ≤ 100 := by
  unfold tl_calculate_coherence_score
  constructor
  · exact pytrunc_nonneg (le_max_left _ _)
  · refine pytrunc_le_of_le ?_
    have h1 : min (100 : ℚ)
        (tlEyeScore eye + tlFillerScore f + tlFidgetScore g + tlPaceScore p
          - tlPenalty flags) ≤ 100 := min_le_left _ _
    push_cast
    exact max_le (by norm_num) h1

theorem gem_score_bounds (eye f g p crit : ℤ) :
    0 ≤ gem_calculate_coherence_score eye f g p crit ∧
      gem_calculate_coherence_score eye f g p crit ≤ 100 := by
  unfold gem_calculate_coherence_score
  exact ⟨le_max_left _ _, max_le (by norm_num) (min_le_left _ _)⟩

theorem pp_score_bounds (eye f g p : ℤ) (sevs : List Severity) :
    0 ≤ pp_calculate_score eye f g p sevs ∧
      pp_calculate_score eye f g p sevs ≤ 100 := by
  unfold pp_calculate_score
  exact ⟨le_max_left _ _, max_le (by norm_num) (min_le_left _ _)⟩

/-! ### Filler-curve helper lemmas -/

theorem ppFiller_eq_gemFiller (f : ℤ) : ppFillerScore f = gemFillerScore f := rfl

theorem gemFillerScore_low {f : ℤ} (h : f ≤ 5) : gemFillerScore f = 25 := by
  unfold gemFillerScore
  rw [if_pos h]

theorem gemFillerScore_high {f : ℤ} (h : 20 ≤ f) : gemFillerScore f = 0 := by
  unfold gemFillerScore
  rw [if_neg (by omega), if_pos h]

theorem gemFillerScore_mid {f : ℤ} (h5 : 5 < f) (h20 : f < 20) :
    gemFillerScore f = ⌊(20 - (f : ℚ)) / 15 * 25⌋ := by
  unfold gemFillerScore
  rw [if_neg (by omega), if_neg (by omega)]
  have hf : (f : ℚ) < 20 := by exact_mod_cast h20
  have hpos : (0 : ℚ) ≤ (20 - (f : ℚ)) / 15 * 25 := by
    apply mul_nonneg (div_nonneg (by linarith) (by norm_num)) (by norm_num)
  unfold pytrunc
  rw [if_pos hpos, max_eq_right (Int.floor_nonneg.mpr hpos)]

theorem gemFillerScore_mid_nonneg {f : ℤ} (h5 : 5 < f) (h20 : f < 20) :
    0 ≤ ⌊(20 - (f : ℚ)) / 15 * 25⌋ := by
  have hf : (f : ℚ) < 20 := by exact_mod_cast h20
  apply Int.floor_nonneg.mpr
  apply mul_nonneg (div_nonneg (by linarith) (by norm_num)) (by norm_num)

end Coherence

/-- C1: every one of the three coherence scorers returns an integer score in
[0,100], for metric inputs of any magnitude (rationals for the dict-driven
scorer, integers for the int-typed ones) and any flag list. -/
theorem C1_score_bounds :
    (∀ (eye f g p : ℚ) (flags : List String),
      0 ≤ Coherence.tl_calculate_coherence_score eye f g p flags ∧
        Coherence.tl_calculate_coherence_score eye f g p flags ≤ 100) ∧
    (∀ eye f g p crit : ℤ,
      0 ≤ Coherence.gem_calculate_coherence_score eye f g p crit ∧
        Coherence.gem_calculate_coherence_score eye f g p crit ≤ 100) ∧
    (∀ (eye f g p : ℤ) (sevs : List Coherence.Severity),
      0 ≤ Coherence.pp_calculate_score eye f g p sevs ∧
        Coherence.pp_calculate_score eye f g p sevs ≤ 100) :=
  ⟨Coherence.tl_score_bounds, Coherence.gem_score_bounds,
    Coherence.pp_score_bounds⟩

/-- C2 (counterexample): the claim states the filler sub-score is the full 25
points whenever the filler count is at most 5, but the scorer in
`twelvelabs_service.py` computes `max(0,(20-f)/20)*25`, which at a filler
count of 5 yields 18.75, not 25. -/
theorem C2_counterexample :
    Coherence.tlFillerScore 5 = 75 / 4 ∧ (75 / 4 : ℚ) ≠ 25 := by
  constructor
  · unfold Coherence.tlFillerScore
    rw [max_eq_right (by norm_num : (0 : ℚ) ≤ (20 - 5) / 20)]
    norm_num
  · norm_num

/-- C2 (amended): the scorers of `preprocess_samples.py` and
`gemini/synthesis.py` follow the claimed filler curve — 25 points at a count
of at most 5, 0 points at a count of at least 20, and in between the linear
interpolation `(20-count)/15*25` truncated to an integer (a value that is
always nonnegative, so the floor at 0 never engages); the scorer in
`twelvelabs_service.py` instead uses `max(0,(20-count)/20)*25`. -/
theorem C2_filler_curve (c : ℤ) (hc : 0 ≤ c) :
    (c ≤ 5 → Coherence.gemFillerScore c = 25 ∧ Coherence.ppFillerScore c = 25) ∧
    (20 ≤ c → Coherence.gemFillerScore c = 0 ∧ Coherence.ppFillerScore c = 0) ∧
    (5 < c → c < 20 →
      Coherence.gemFillerScore c = ⌊(20 - (c : ℚ)) / 15 * 25⌋ ∧
      Coherence.ppFillerScore c = ⌊(20 - (c : ℚ)) / 15 * 25⌋ ∧
      0 ≤ ⌊(20 - (c : ℚ)) / 15 * 25⌋) := by
  refine ⟨fun h => ?_, fun h => ?_, fun h5 h20 => ?_⟩
  · rw [Coherence.ppFiller_eq_gemFiller, Coherence.gemFillerScore_low h]
    exact ⟨rfl, rfl⟩
  · rw [Coherence.ppFiller_eq_gemFiller, Coherence.gemFillerScore_high h]
    exact ⟨rfl, rfl⟩
  · rw [Coherence.ppFiller_eq_gemFiller, Coherence.gemFillerScore_mid h5 h20]
    exact ⟨rfl, rfl, Coherence.gemFillerScore_mid_nonneg h5 h20⟩

/-- C2 witness: the amended curve evaluated at a filler count of 7. -/
theorem C2_filler_curve_witness :
    Coherence.gemFillerScore 7 = ⌊(20 - (7 : ℚ)) / 15 * 25⌋ :=
  ((C2_filler_curve 7 (by norm_num)).2.2 (by norm_num) (by norm_num)).1

namespace Coherence

/-! ### Pace-band lemmas for the `twelvelabs_service.py` curve -/

theorem tlPace_band {p : ℚ} (h1 : 140 ≤ p) (h2 : p ≤ 160) :
    tlPaceScore p = 15 := by
  unfold tlPaceScore
  rw [if_pos ⟨h1, h2⟩]

theorem tlPace_mid1 {p : ℚ} (h1 : 120 ≤ p) (h2 : p < 140) :
    tlPaceScore p = 10 := by
  unfold tlPaceScore
  rw [if_neg (by rintro ⟨a, b⟩; linarith), if_pos ⟨h1, by linarith⟩]

theorem tlPace_mid2 {p : ℚ} (h1 : 160 < p) (h2 : p ≤ 180) :
    tlPaceScore p = 10 := by
  unfold tlPaceScore
  rw [if_neg (by rintro ⟨a, b⟩; linarith), if_pos ⟨by linarith, h2⟩]

theorem tlPace_low {p : ℚ} (h1 : 100 ≤ p) (h2 : p < 120) :
    tlPaceScore p = 5 := by
  unfold tlPaceScore
  rw [if_neg (by rintro ⟨a, b⟩; linarith), if_neg (by rintro ⟨a, b⟩; linarith),
    if_pos ⟨h1, by linarith⟩]

theorem tlPace_high {p : ℚ} (h1 : 180 < p) (h2 : p ≤ 200) :
    tlPaceScore p = 5 := by
  unfold tlPaceScore
  rw [if_neg (by rintro ⟨a, b⟩; linarith), if_neg (by rintro ⟨a, b⟩; linarith),
    if_pos ⟨by linarith, h2⟩]

theorem tlPace_verylow {p : ℚ} (h : p < 100) : tlPaceScore p = 0 := by
  unfold tlPaceScore
  rw [if_neg (by rintro ⟨a, b⟩; linarith), if_neg (by rintro ⟨a, b⟩; linarith),
    if_neg (by rintro ⟨a, b⟩; linarith)]

theorem tlPace_veryhigh {p : ℚ} (h : 200 < p) : tlPaceScore p = 0 := by
  unfold tlPaceScore
  rw [if_neg (by rintro ⟨a, b⟩; linarith), if_neg (by rintro ⟨a, b⟩; linarith),
    if_neg (by rintro ⟨a, b⟩; linarith)]

theorem tlPace_nonneg (p : ℚ) : 0 ≤ tlPaceScore p := by
  unfold tlPaceScore
  split_ifs <;> norm_num

theorem tlPace_ge_ten {p : ℚ} (h1 : 120 ≤ p) (h2 : p ≤ 180) :
    10 ≤ tlPaceScore p := by
  rcases le_or_lt 140 p with a | a
  · rcases le_or_lt p 160 with b | b
    · rw [tlPace_band a b]; norm_num
    · rw [tlPace_mid2 b h2]
  · rw [tlPace_mid1 h1 a]

theorem tlPace_ge_five {p : ℚ} (h1 : 100 ≤ p) (h2 : p ≤ 200) :
    5 ≤ tlPaceScore p := by
  rcases le_or_lt 120 p with a | a
  · rcases le_or_lt p 180 with b | b
    · linarith [tlPace_ge_ten a b]
    · rw [tlPace_high b h2]
  · rw [tlPace_low h1 a]

theorem tlPace_left_mono {p p' : ℚ} (h : p ≤ p') (h' : p' ≤ 160) :
    tlPaceScore p ≤ tlPaceScore p' := by
  rcases le_or_lt 140 p with h140 | h140
  · rw [tlPace_band h140 (le_trans h h'), tlPace_band (le_trans h140 h) h']
  rcases le_or_lt 120 p with h120 | h120
  · rw [tlPace_mid1 h120 h140]
    exact tlPace_ge_ten (le_trans h120 h) (by linarith)
  rcases le_or_lt 100 p with h100 | h100
  · rw [tlPace_low h100 h120]
    exact tlPace_ge_five (le_trans h100 h) (by linarith)
  · rw [tlPace_verylow h100]
    exact tlPace_nonneg p'

theorem tlPace_right_mono {p p' : ℚ} (h140 : 140 ≤ p) (h : p ≤ p') :
    tlPaceScore p' ≤ tlPaceScore p := by
  rcases le_or_lt p' 160 with h160 | h160
  · rw [tlPace_band h140 (le_trans h h160), tlPace_band (le_trans h140 h) h160]
  rcases le_or_lt p' 180 with h180 | h180
  · rw [tlPace_mid2 h160 h180]
    rcases le_or_lt p 160 with b | b
    · rw [tlPace_band h140 b]; norm_num
    · rw [tlPace_mid2 b (le_trans h h180)]
  rcases le_or_lt p' 200 with h200 | h200
  · rw [tlPace_high h180 h200]
    exact tlPace_ge_five (by linarith) (le_trans h h200)
  · rw [tlPace_veryhigh h200]
    exact tlPace_nonneg p

/-! ### Sub-score monotonicity, `twelvelabs_service.py` -/

theorem tlEyeScore_mono {e e' : ℚ} (h : e ≤ e') : tlEyeScore e ≤ tlEyeScore e' := by
  unfold tlEyeScore
  linarith

theorem tlFillerScore_anti {f f' : ℚ} (h : f ≤ f') :
    tlFillerScore f' ≤ tlFillerScore f := by
  unfold tlFillerScore
  have : (20 - f') / 20 ≤ (20 - f) / 20 := by linarith
  exact mul_le_mul_of_nonneg_right (max_le_max le_rfl this) (by norm_num)

theorem tlFidgetScore_anti {g g' : ℚ} (h : g ≤ g') :
    tlFidgetScore g' ≤ tlFidgetScore g := by
  unfold tlFidgetScore
  have : (15 - g') / 15 ≤ (15 - g) / 15 := by linarith
  exact mul_le_mul_of_nonneg_right (max_le_max le_rfl this) (by norm_num)

theorem tl_score_eye_mono {e e' f g p : ℚ} {fl : List String} (h : e ≤ e') :
    tl_calculate_coherence_score e f g p fl ≤
      tl_calculate_coherence_score e' f g p fl := by
  unfold tl_calculate_coherence_score
  apply pytrunc_mono
  have := tlEyeScore_mono h
  apply max_le_max le_rfl
  apply min_le_min le_rfl
  linarith

theorem tl_score_filler_anti {e f f' g p : ℚ} {fl : List String} (h : f ≤ f') :
    tl_calculate_coherence_score e f' g p fl ≤
      tl_calculate_coherence_score e f g p fl := by
  unfold tl_calculate_coherence_score
  apply pytrunc_mono
  have := tlFillerScore_anti h
  apply max_le_max le_rfl
  apply min_le_min le_rfl
  linarith

theorem tl_score_fidget_anti {e f g g' p : ℚ} {fl : List String} (h : g ≤ g') :
    tl_calculate_coherence_score e f g' p fl ≤
      tl_calculate_coherence_score e f g p fl := by
  unfold tl_calculate_coherence_score
  apply pytrunc_mono
  have := tlFidgetScore_anti h
  apply max_le_max le_rfl
  apply min_le_min le_rfl
  linarith

end Coherence

namespace Coherence

/-! ### Pace-band lemmas for the `gemini/synthesis.py` curve -/

theorem gemPace_band {p : ℤ} (h1 : 140 ≤ p) (h2 : p ≤ 160) :
    gemPaceScore p = 15 := by
  unfold gemPaceScore
  rw [if_pos ⟨h1, h2⟩]

theorem gemPace_lmid {p : ℤ} (h1 : 120 ≤ p) (h2 : p < 140) :
    gemPaceScore p = 10 + pytrunc (((p : ℚ) - 120) / 20 * 5) := by
  unfold gemPaceScore
  rw [if_neg (by omega), if_pos ⟨h1, h2⟩]

theorem gemPace_rmid {p : ℤ} (h1 : 160 < p) (h2 : p ≤ 180) :
    gemPaceScore p = 15 - pytrunc (((p : ℚ) - 160) / 20 * 5) := by
  unfold gemPaceScore
  rw [if_neg (by omega), if_neg (by omega), if_pos ⟨h1, h2⟩]

theorem gemPace_low {p : ℤ} (h : p < 120) :
    gemPaceScore p = max 0 (pytrunc ((p : ℚ) / 120 * 10)) := by
  unfold gemPaceScore
  rw [if_neg (by omega), if_neg (by omega), if_neg (by omega), if_pos h]

theorem gemPace_high {p : ℤ} (h : 180 < p) :
    gemPaceScore p = max 0 (10 - pytrunc (((p : ℚ) - 180) / 20 * 10)) := by
  unfold gemPaceScore
  rw [if_neg (by omega), if_neg (by omega), if_neg (by omega),
    if_neg (by omega)]

theorem gemPace_low_le_ten {p : ℤ} (h : p < 120) : gemPaceScore p ≤ 10 := by
  rw [gemPace_low h]
  apply max_le (by norm_num)
  apply pytrunc_le_of_le
  have : (p : ℚ) ≤ 120 := by exact_mod_cast le_of_lt h
  push_cast
  linarith

theorem gemPace_lmid_ge_ten {p : ℤ} (h1 : 120 ≤ p) (h2 : p < 140) :
    10 ≤ gemPaceScore p := by
  rw [gemPace_lmid h1 h2]
  have : (0 : ℚ) ≤ ((p : ℚ) - 120) / 20 * 5 := by
    have : (120 : ℚ) ≤ (p : ℚ) := by exact_mod_cast h1
    apply mul_nonneg (div_nonneg (by linarith) (by norm_num)) (by norm_num)
  linarith [pytrunc_nonneg this]

theorem gemPace_lmid_le_fifteen {p : ℤ} (h1 : 120 ≤ p) (h2 : p < 140) :
    gemPaceScore p ≤ 15 := by
  rw [gemPace_lmid h1 h2]
  have hp : (p : ℚ) ≤ 140 := by exact_mod_cast le_of_lt h2
  have : pytrunc (((p : ℚ) - 120) / 20 * 5) ≤ 5 := by
    apply pytrunc_le_of_le
    push_cast
    linarith
  linarith

theorem gemPace_rmid_ge_ten {p : ℤ} (h1 : 160 < p) (h2 : p ≤ 180) :
    10 ≤ gemPaceScore p := by
  rw [gemPace_rmid h1 h2]
  have hp : (p : ℚ) ≤ 180 := by exact_mod_cast h2
  have : pytrunc (((p : ℚ) - 160) / 20 * 5) ≤ 5 := by
    apply pytrunc_le_of_le
    push_cast
    linarith
  linarith

theorem gemPace_rmid_le_fifteen {p : ℤ} (h1 : 160 < p) (h2 : p ≤ 180) :
    gemPaceScore p ≤ 15 := by
  rw [gemPace_rmid h1 h2]
  have : (0 : ℚ) ≤ ((p : ℚ) - 160) / 20 * 5 := by
    have : (160 : ℚ) ≤ (p : ℚ) := by exact_mod_cast le_of_lt h1
    apply mul_nonneg (div_nonneg (by linarith) (by norm_num)) (by norm_num)
  linarith [pytrunc_nonneg this]

theorem gemPace_high_le_ten {p : ℤ} (h : 180 < p) : gemPaceScore p ≤ 10 := by
  rw [gemPace_high h]
  have : (0 : ℚ) ≤ ((p : ℚ) - 180) / 20 * 10 := by
    have : (180 : ℚ) ≤ (p : ℚ) := by exact_mod_cast le_of_lt h
    apply mul_nonneg (div_nonneg (by linarith) (by norm_num)) (by norm_num)
  have := pytrunc_nonneg this
  apply max_le (by norm_num)
  omega

theorem gemPace_nonneg (p : ℤ) : 0 ≤ gemPaceScore p := by
  rcases lt_or_le p 120 with h | h
  · rw [gemPace_low h]; exact le_max_left _ _
  rcases lt_or_le p 140 with h2 | h2
  · linarith [gemPace_lmid_ge_ten h h2]
  rcases le_or_lt p 160 with h3 | h3
  · rw [gemPace_band h2 h3]; norm_num
  rcases le_or_lt p 180 with h4 | h4
  · linarith [gemPace_rmid_ge_ten h3 h4]
  · rw [gemPace_high h4]; exact le_max_left _ _

theorem gemPace_left_mono {p p' : ℤ} (h : p ≤ p') (h' : p' ≤ 160) :
    gemPaceScore p ≤ gemPaceScore p' := by
  rcases le_or_lt 140 p with h140 | h140
  · rw [gemPace_band h140 (le_trans h h'), gemPace_band (le_trans h140 h) h']
  rcases le_or_lt 120 p with h120 | h120
  · -- p ∈ [120,140)
    rcases le_or_lt 140 p' with k | k
    · calc gemPaceScore p ≤ 15 := gemPace_lmid_le_fifteen h120 h140
        _ = gemPaceScore p' := (gemPace_band k h').symm
    · -- both in [120,140)
      rw [gemPace_lmid h120 h140, gemPace_lmid (le_trans h120 h) k]
      have hq : ((p : ℚ) - 120) / 20 * 5 ≤ ((p' : ℚ) - 120) / 20 * 5 := by
        have : (p : ℚ) ≤ (p' : ℚ) := by exact_mod_cast h
        linarith
      linarith [pytrunc_mono hq]
  · -- p < 120
    rcases le_or_lt 120 p' with k | k
    · -- p' ≥ 120: score p ≤ 10 ≤ score p'
      refine le_trans (gemPace_low_le_ten h120) ?_
      rcases le_or_lt 140 p' with m | m
      · rw [gemPace_band m h']; norm_num
      · exact gemPace_lmid_ge_ten k m
    · -- both < 120
      rw [gemPace_low h120, gemPace_low k]
      have hq : (p : ℚ) / 120 * 10 ≤ (p' : ℚ) / 120 * 10 := by
        have : (p : ℚ) ≤ (p' : ℚ) := by exact_mod_cast h
        linarith
      exact max_le_max le_rfl (pytrunc_mono hq)

theorem gemPace_right_mono {p p' : ℤ} (h140 : 140 ≤ p) (h : p ≤ p') :
    gemPaceScore p' ≤ gemPaceScore p := by
  rcases le_or_lt p' 160 with h160 | h160
  · rw [gemPace_band h140 (le_trans h h160), gemPace_band (le_trans h140 h) h160]
  rcases le_or_lt p' 180 with h180 | h180
  · -- p' ∈ (160,180]
    rcases le_or_lt p 160 with b | b
    · calc gemPaceScore p' ≤ 15 := gemPace_rmid_le_fifteen h160 h180
        _ = gemPaceScore p := (gemPace_band h140 b).symm
    · -- both in (160,180]
      rw [gemPace_rmid h160 h180, gemPace_rmid b (le_trans h h180)]
      have hq : ((p : ℚ) - 160) / 20 * 5 ≤ ((p' : ℚ) - 160) / 20 * 5 := by
        have : (p : ℚ) ≤ (p' : ℚ) := by exact_mod_cast h
        linarith
      linarith [pytrunc_mono hq]
  · -- p' > 180
    rcases le_or_lt p 180 with b | b
    · -- score p' ≤ 10 ≤ score p
      refine le_trans (gemPace_high_le_ten h180) ?_
      rcases le_or_lt p 160 with m | m
      · rw [gemPace_band h140 m]; norm_num
      · exact gemPace_rmid_ge_ten m b
    · -- both > 180
      rw [gemPace_high h180, gemPace_high b]
      have hq : ((p : ℚ) - 180) / 20 * 10 ≤ ((p' : ℚ) - 180) / 20 * 10 := by
        have : (p : ℚ) ≤ (p' : ℚ) := by exact_mod_cast h
        linarith
      have := pytrunc_mono hq
      exact max_le_max le_rfl (by omega)

end Coherence

namespace Coherence

/-! ### Sub-score monotonicity, `gemini/synthesis.py` -/

theorem gemEyeScore_mono {e e' : ℤ} (h : e ≤ e') :
    gemEyeScore e ≤ gemEyeScore e' := by
  unfold gemEyeScore
  apply min_le_min le_rfl
  apply pytrunc_mono
  have : (e : ℚ) ≤ (e' : ℚ) := by exact_mod_cast h
  linarith

theorem gemFillerScore_le_25 (f : ℤ) : gemFillerScore f ≤ 25 := by
  unfold gemFillerScore
  split_ifs with a b
  · exact le_refl 25
  · norm_num
  · apply max_le (by norm_num)
    apply pytrunc_le_of_le
    have h5 : (5 : ℤ) < f := by omega
    have : (5 : ℚ) < (f : ℚ) := by exact_mod_cast h5
    push_cast
    linarith

theorem gemFillerScore_nonneg (f : ℤ) : 0 ≤ gemFillerScore f := by
  unfold gemFillerScore
  split_ifs <;> first | norm_num | exact le_max_left _ _

theorem gemFillerScore_anti {f f' : ℤ} (h : f ≤ f') :
    gemFillerScore f' ≤ gemFillerScore f := by
  rcases le_or_lt f 5 with h1 | h1
  · rw [gemFillerScore_low h1]
    exact gemFillerScore_le_25 f'
  rcases le_or_lt 20 f with h2 | h2
  · rw [gemFillerScore_high h2, gemFillerScore_high (le_trans h2 h)]
  rcases le_or_lt 20 f' with h3 | h3
  · rw [gemFillerScore_high h3]
    exact gemFillerScore_nonneg f
  · unfold gemFillerScore
    rw [if_neg (by omega), if_neg (by omega), if_neg (by omega),
      if_neg (by omega)]
    apply max_le_max le_rfl
    apply pytrunc_mono
    have : (f : ℚ) ≤ (f' : ℚ) := by exact_mod_cast h
    linarith

theorem gemFidgetScore_le_20 (g : ℤ) : gemFidgetScore g ≤ 20 := by
  unfold gemFidgetScore
  split_ifs with a b
  · exact le_refl 20
  · norm_num
  · apply max_le (by norm_num)
    apply pytrunc_le_of_le
    have h3 : (3 : ℤ) < g := by omega
    have : (3 : ℚ) < (g : ℚ) := by exact_mod_cast h3
    push_cast
    linarith

theorem gemFidgetScore_nonneg (g : ℤ) : 0 ≤ gemFidgetScore g := by
  unfold gemFidgetScore
  split_ifs <;> first | norm_num | exact le_max_left _ _

theorem gemFidgetScore_anti {g g' : ℤ} (h : g ≤ g') :
    gemFidgetScore g' ≤ gemFidgetScore g := by
  rcases le_or_lt g 3 with h1 | h1
  · rw [show gemFidgetScore g = 20 from by unfold gemFidgetScore; rw [if_pos h1]]
    exact gemFidgetScore_le_20 g'
  rcases le_or_lt 15 g with h2 | h2
  · rw [show gemFidgetScore g = 0 from by
      unfold gemFidgetScore; rw [if_neg (by omega), if_pos h2]]
    rw [show gemFidgetScore g' = 0 from by
      unfold gemFidgetScore; rw [if_neg (by omega), if_pos (by omega)]]
  rcases le_or_lt 15 g' with h3 | h3
  · rw [show gemFidgetScore g' = 0 from by
      unfold gemFidgetScore; rw [if_neg (by omega), if_pos h3]]
    exact gemFidgetScore_nonneg g
  · unfold gemFidgetScore
    rw [if_neg (by omega), if_neg (by omega), if_neg (by omega),
      if_neg (by omega)]
    apply max_le_max le_rfl
    apply pytrunc_mono
    have : (g : ℚ) ≤ (g' : ℚ) := by exact_mod_cast h
    linarith

theorem gem_score_eye_mono {e e' f g p crit : ℤ} (h : e ≤ e') :
    gem_calculate_coherence_score e f g p crit ≤
      gem_calculate_coherence_score e' f g p crit := by
  unfold gem_calculate_coherence_score
  have := gemEyeScore_mono h
  apply max_le_max le_rfl
  apply min_le_min le_rfl
  omega

theorem gem_score_filler_anti {e f f' g p crit : ℤ} (h : f ≤ f') :
    gem_calculate_coherence_score e f' g p crit ≤
      gem_calculate_coherence_score e f g p crit := by
  unfold gem_calculate_coherence_score
  have := gemFillerScore_anti h
  apply max_le_max le_rfl
  apply min_le_min le_rfl
  omega

theorem gem_score_fidget_anti {e f g g' p crit : ℤ} (h : g ≤ g') :
    gem_calculate_coherence_score e f g' p crit ≤
      gem_calculate_coherence_score e f g p crit := by
  unfold gem_calculate_coherence_score
  have := gemFidgetScore_anti h
  apply max_le_max le_rfl
  apply min_le_min le_rfl
  omega

end Coherence

/-- C3: holding the other inputs fixed, the coherence score of the
`twelvelabs_service.py` scorer and of the `gemini/synthesis.py` scorer is
monotone non-decreasing in the eye-contact percentage and monotone
non-increasing in the filler and fidget counts; both pace sub-scores take
their top value 15 on the whole band 140–160 WPM and fall off monotonically
(non-increasing) moving away from the band on either side. -/
theorem C3_monotonicity :
    (∀ (e e' f g p : ℚ) (fl : List String), e ≤ e' →
      Coherence.tl_calculate_coherence_score e f g p fl ≤
        Coherence.tl_calculate_coherence_score e' f g p fl) ∧
    (∀ (e f f' g p : ℚ) (fl : List String), f ≤ f' →
      Coherence.tl_calculate_coherence_score e f' g p fl ≤
        Coherence.tl_calculate_coherence_score e f g p fl) ∧
    (∀ (e f g g' p : ℚ) (fl : List String), g ≤ g' →
      Coherence.tl_calculate_coherence_score e f g' p fl ≤
        Coherence.tl_calculate_coherence_score e f g p fl) ∧
    (∀ e e' f g p crit : ℤ, e ≤ e' →
      Coherence.gem_calculate_coherence_score e f g p crit ≤
        Coherence.gem_calculate_coherence_score e' f g p crit) ∧
    (∀ e f f' g p crit : ℤ, f ≤ f' →
      Coherence.gem_calculate_coherence_score e f' g p crit ≤
        Coherence.gem_calculate_coherence_score e f g p crit) ∧
    (∀ e f g g' p crit : ℤ, g ≤ g' →
      Coherence.gem_calculate_coherence_score e f g' p crit ≤
        Coherence.gem_calculate_coherence_score e f g p crit) ∧
    (∀ p : ℚ, 140 ≤ p → p ≤ 160 → Coherence.tlPaceScore p = 15) ∧
    (∀ p p' : ℚ, p ≤ p' → p' ≤ 160 →
      Coherence.tlPaceScore p ≤ Coherence.tlPaceScore p') ∧
    (∀ p p' : ℚ, 140 ≤ p → p ≤ p' →
      Coherence.tlPaceScore p' ≤ Coherence.tlPaceScore p) ∧
    (∀ p : ℤ, 140 ≤ p → p ≤ 160 → Coherence.gemPaceScore p = 15) ∧
    (∀ p p' : ℤ, p ≤ p' → p' ≤ 160 →
      Coherence.gemPaceScore p ≤ Coherence.gemPaceScore p') ∧
    (∀ p p' : ℤ, 140 ≤ p → p ≤ p' →
      Coherence.gemPaceScore p' ≤ Coherence.gemPaceScore p) := by
  refine ⟨?_, ?_, ?_, ?_, ?_, ?_, ?_, ?_, ?_, ?_, ?_, ?_⟩
  · exact fun e e' f g p fl h => Coherence.tl_score_eye_mono h
  · exact fun e f f' g p fl h => Coherence.tl_score_filler_anti h
  · exact fun e f g g' p fl h => Coherence.tl_score_fidget_anti h
  · exact fun e e' f g p crit h => Coherence.gem_score_eye_mono h
  · exact fun e f f' g p crit h => Coherence.gem_score_filler_anti h
  · exact fun e f g g' p crit h => Coherence.gem_score_fidget_anti h
  · exact fun p h1 h2 => Coherence.tlPace_band h1 h2
  · exact fun p p' h h' => Coherence.tlPace_left_mono h h'
  · exact fun p p' h1 h => Coherence.tlPace_right_mono h1 h
  · exact fun p h1 h2 => Coherence.gemPace_band h1 h2
  · exact fun p p' h h' => Coherence.gemPace_left_mono h h'
  · exact fun p p' h1 h => Coherence.gemPace_right_mono h1 h

/-- C3 witness: each monotonicity statement instantiated at concrete inputs. -/
theorem C3_monotonicity_witness :
    (Coherence.tl_calculate_coherence_score 50 8 4 150 ["HIGH"] ≤
      Coherence.tl_calculate_coherence_score 70 8 4 150 ["HIGH"]) ∧
    (Coherence.tl_calculate_coherence_score 50 12 4 150 [] ≤
      Coherence.tl_calculate_coherence_score 50 8 4 150 []) ∧
    (Coherence.tl_calculate_coherence_score 50 8 9 150 [] ≤
      Coherence.tl_calculate_coherence_score 50 8 4 150 []) ∧
    (Coherence.gem_calculate_coherence_score 50 8 4 150 1 ≤
      Coherence.gem_calculate_coherence_score 70 8 4 150 1) ∧
    (Coherence.gem_calculate_coherence_score 50 12 4 150 0 ≤
      Coherence.gem_calculate_coherence_score 50 8 4 150 0) ∧
    (Coherence.gem_calculate_coherence_score 50 8 9 150 0 ≤
      Coherence.gem_calculate_coherence_score 50 8 4 150 0) ∧
    Coherence.tlPaceScore 150 = 15 ∧
    (Coherence.tlPaceScore 110 ≤ Coherence.tlPaceScore 130) ∧
    (Coherence.tlPaceScore 190 ≤ Coherence.tlPaceScore 170) ∧
    Coherence.gemPaceScore 150 = 15 ∧
    (Coherence.gemPaceScore 110 ≤ Coherence.gemPaceScore 130) ∧
    (Coherence.gemPaceScore 190 ≤ Coherence.gemPaceScore 170) :=
  ⟨C3_monotonicity.1 50 70 8 4 150 ["HIGH"] (by norm_num),
    C3_monotonicity.2.1 50 8 12 4 150 [] (by norm_num),
    C3_monotonicity.2.2.1 50 8 4 9 150 [] (by norm_num),
    C3_monotonicity.2.2.2.1 50 70 8 4 150 1 (by norm_num),
    C3_monotonicity.2.2.2.2.1 50 8 12 4 150 0 (by norm_num),
    C3_monotonicity.2.2.2.2.2.1 50 8 4 9 150 0 (by norm_num),
    C3_monotonicity.2.2.2.2.2.2.1 150 (by norm_num) (by norm_num),
    C3_monotonicity.2.2.2.2.2.2.2.1 110 130 (by norm_num) (by norm_num),
    C3_monotonicity.2.2.2.2.2.2.2.2.1 170 190 (by norm_num) (by norm_num),
    C3_monotonicity.2.2.2.2.2.2.2.2.2.1 150 (by norm_num) (by norm_num),
    C3_monotonicity.2.2.2.2.2.2.2.2.2.2.1 110 130 (by norm_num) (by norm_num),
    C3_monotonicity.2.2.2.2.2.2.2.2.2.2.2 170 190 (by norm_num) (by norm_num)⟩

/-- C4 (counterexample): the flag loop of `_convert_analysis_to_result`
(`video_service.py`) has no cap — eleven raw issue items yield eleven
flags in the assembled result, contradicting the claimed 10-flag bound. -/
theorem C4_counterexample :
    (Coherence.vsConvertFlags (List.replicate 11 Coherence.emptyRawFlag)).length
      = 11 ∧
    ¬ (Coherence.vsConvertFlags
        (List.replicate 11 Coherence.emptyRawFlag)).length ≤ 10 := by
  constructor
  · simp [Coherence.vsConvertFlags]
  · simp [Coherence.vsConvertFlags]

/-- C4 (amended): only the sample-preprocessing normalizer
(`_extract_flags` in `preprocess_samples.py`) caps its output at 10 flags;
the live-path converter in `video_service.py` emits one flag per raw item
with no cap. -/
theorem C4_flag_cap (raws : List Coherence.RawFlag) :
    (Coherence.ppExtractFlags raws).length ≤ 10 ∧
      (Coherence.vsConvertFlags raws).length = raws.length := by
  constructor
  · unfold Coherence.ppExtractFlags
    calc ((raws.take 10).enum.filterMap
          (fun p => Coherence.ppParseFlag p.1 p.2)).length
        ≤ (raws.take 10).enum.length := List.length_filterMap_le _ _
      _ = (raws.take 10).length := List.enum_length
      _ ≤ 10 := by simp [List.length_take]
  · simp [Coherence.vsConvertFlags]

/-- C5 (counterexample): `_extract_flags` in `preprocess_samples.py` does
not default a bad enum value — the `except` branch drops the item, so a raw
flag with an unknown `type` produces no output flag at all. -/
theorem C5_counterexample :
    Coherence.ppExtractFlags [Coherence.badEnumRaw] = [] := by
  decide

/-- C5 (amended): neither normalizer raises on a bad enum value.  The
live-path converter in `video_service.py` defaults an unknown `type` to
`EMOTIONAL_MISMATCH` and an unknown `severity` to `MEDIUM` and keeps the
item (one output flag per raw item); the sample preprocessor
(`_extract_flags`) absorbs the parse failure by dropping the item instead
of defaulting it. -/
theorem C5_bad_enum_absorbed :
    (∀ raws : List Coherence.RawFlag,
      (Coherence.vsConvertFlags raws).length = raws.length) ∧
    (∀ (i : ℕ) (f : Coherence.RawFlag),
      Coherence.parseDissonanceType (f.typeKey.getD "EMOTIONAL_MISMATCH")
          = none →
        (Coherence.vsConvertOne i f).type
          = Coherence.DissonanceType.emotionalMismatch) ∧
    (∀ (i : ℕ) (f : Coherence.RawFlag),
      Coherence.parseSeverity (f.severityKey.getD "MEDIUM") = none →
        (Coherence.vsConvertOne i f).severity = Coherence.Severity.medium) ∧
    (∀ (i : ℕ) (f : Coherence.RawFlag),
      Coherence.parseDissonanceType (f.typeKey.getD "EMOTIONAL_MISMATCH")
            = none ∨
          Coherence.parseSeverity (f.severityKey.getD "MEDIUM") = none →
        Coherence.ppParseFlag i f = none) := by
  refine ⟨?_, ?_, ?_, ?_⟩
  · intro raws
    simp [Coherence.vsConvertFlags]
  · intro i f h
    simp [Coherence.vsConvertOne, h]
  · intro i f h
    simp [Coherence.vsConvertOne, h]
  · intro i f h
    rcases h with h | h
    · simp [Coherence.ppParseFlag, h]
    · rcases hd : Coherence.parseDissonanceType
          (f.typeKey.getD "EMOTIONAL_MISMATCH") with _ | t <;>
        simp [Coherence.ppParseFlag, hd, h]

/-- C5 witness: the defaulting conjuncts applied to a raw item with bad
enum values. -/
theorem C5_bad_enum_absorbed_witness :
    (Coherence.vsConvertOne 0 Coherence.badEnumRaw).type
        = Coherence.DissonanceType.emotionalMismatch ∧
    (Coherence.vsConvertOne 0 Coherence.badEnumRaw).severity
        = Coherence.Severity.medium ∧
    Coherence.ppParseFlag 0 Coherence.badEnumRaw = none :=
  ⟨C5_bad_enum_absorbed.2.1 0 Coherence.badEnumRaw (by decide),
    C5_bad_enum_absorbed.2.2.1 0 Coherence.badEnumRaw (by decide),
    C5_bad_enum_absorbed.2.2.2 0 Coherence.badEnumRaw (Or.inl (by decide))⟩

/-- C6: when the metrics sit entirely inside the ideal bands (eye contact
at least 90, at most 3 fillers, at most 2 fidgets, pace within 130–170),
`_generate_coaching_flags_from_metrics` emits exactly the single positive
flag, placed at 30% of the video duration with severity LOW; and for every
input the synthesizer's flag list is non-empty. -/
theorem C6_synthesis_guarantee :
    (∀ (m : Coherence.AnalysisMetrics) (d : ℚ),
      90 ≤ m.eyeContact → m.fillerWords ≤ 3 → m.fidgeting ≤ 2 →
      130 ≤ m.speakingPace → m.speakingPace ≤ 170 →
      Coherence.generateCoachingFlags m d
          = [Coherence.positiveCoachingFlag d 1] ∧
        (Coherence.positiveCoachingFlag d 1).timestamp = d * (3 / 10) ∧
        (Coherence.positiveCoachingFlag d 1).severity
          = Coherence.Severity.low) ∧
    (∀ (m : Coherence.AnalysisMetrics) (d : ℚ),
      Coherence.generateCoachingFlags m d ≠ []) := by
  constructor
  · intro m d h1 h2 h3 h4 h5
    have n1 : ¬ (m.eyeContact < 90) := by omega
    have n2 : ¬ (3 < m.fillerWords) := by omega
    have n3 : ¬ (2 < m.fidgeting) := by omega
    have n4 : ¬ (m.speakingPace < 130) := by omega
    have n5 : ¬ (170 < m.speakingPace) := by omega
    have hbase : Coherence.coachingFlagsBase m d = [] := by
      simp [Coherence.coachingFlagsBase, n1, n2, n3, n4, n5]
    refine ⟨?_, rfl, rfl⟩
    simp [Coherence.generateCoachingFlags, hbase]
  · intro m d
    unfold Coherence.generateCoachingFlags
    by_cases hb : Coherence.coachingFlagsBase m d = []
    · simp [hb]
    · simp [hb]

/-- C6 witness: the synthesis guarantee at in-band metrics and a 100-second
duration. -/
theorem C6_synthesis_guarantee_witness :
    Coherence.generateCoachingFlags
        { eyeContact := 95, fillerWords := 2, fidgeting := 1,
          speakingPace := 150, speakingPaceTarget := "140-160" } 100
      = [Coherence.positiveCoachingFlag 100 1] :=
  (C6_synthesis_guarantee.1
    { eyeContact := 95, fillerWords := 2, fidgeting := 1,
      speakingPace := 150, speakingPaceTarget := "140-160" } 100
    (by decide) (by decide) (by decide) (by decide) (by decide)).1

/-- C7 (counterexample): the mock result of `_generate_mock_result`
(`video_service.py`) hand-writes its `timelineHeatmap`: it has four points
while the flag list has three, so it is not the flags' `(timestamp,
severity)` projection. -/
theorem C7_counterexample :
    Coherence.mockTimelineHeatmap.length = 4 ∧
    Coherence.mockDissonanceFlags.length = 3 ∧
    ¬ List.Perm Coherence.mockTimelineHeatmap
        (Coherence.mockDissonanceFlags.map
          (fun fl => { timestamp := fl.timestamp, severity := fl.severity
            : Coherence.TimelinePoint })) := by
  refine ⟨rfl, rfl, fun h => ?_⟩
  have := h.length_eq
  simp [Coherence.mockTimelineHeatmap, Coherence.mockDissonanceFlags] at this

/-- C7 (amended): in the two computed assembly paths — `_create_timeline`
in `preprocess_samples.py` and the timeline built by
`_convert_analysis_to_result` in `video_service.py` — the heatmap is
exactly the flags' `(timestamp, severity)` projection (a permutation of
it, one point per flag) in non-decreasing timestamp order; the mock
result's hand-written heatmap does not satisfy this. -/
theorem C7_timeline_projection :
    (∀ (flags : List Coherence.DissonanceFlag) (d : ℚ),
      List.Perm (Coherence.createTimeline flags d)
          (flags.map (fun fl =>
            { timestamp := fl.timestamp, severity := fl.severity
              : Coherence.TimelinePoint })) ∧
        List.Pairwise (fun a b =>
            Coherence.TimelinePoint.timestamp a
              ≤ Coherence.TimelinePoint.timestamp b)
          (Coherence.createTimeline flags d)) ∧
    (∀ raws : List Coherence.RawFlag,
      List.Perm (Coherence.vsTimelineHeatmap raws)
          ((Coherence.vsConvertFlags raws).map (fun fl =>
            { timestamp := fl.timestamp, severity := fl.severity
              : Coherence.TimelinePoint })) ∧
        List.Pairwise (fun a b =>
            Coherence.TimelinePoint.timestamp a
              ≤ Coherence.TimelinePoint.timestamp b)
          (Coherence.vsTimelineHeatmap raws)) := by
  constructor
  · intro flags d
    exact ⟨List.perm_insertionSort _ _, List.sorted_insertionSort _ _⟩
  · intro raws
    exact ⟨List.perm_insertionSort _ _, List.sorted_insertionSort _ _⟩

namespace Coherence

theorem mem_ite_singleton {α : Type} {c : Prop} [Decidable c]
    {x fl : α} (h : fl ∈ (if c then [x] else [])) : fl = x := by
  split_ifs at h
  · simpa using h
  · simp at h

/-- Every flag synthesized by `_generate_coaching_flags_from_metrics` has
`endTimestamp = None`. -/
theorem generateCoachingFlags_end_none (m : AnalysisMetrics) (d : ℚ) :
    ∀ fl ∈ generateCoachingFlags m d, fl.endTimestamp = none := by
  intro fl hfl
  simp only [generateCoachingFlags] at hfl
  by_cases hb : coachingFlagsBase m d = []
  · rw [if_pos hb] at hfl
    have := List.mem_singleton.mp hfl
    subst this
    rfl
  · rw [if_neg hb] at hfl
    simp only [coachingFlagsBase] at hfl
    rcases List.mem_append.mp hfl with h | h
    · rcases List.mem_append.mp h with h | h
      · rcases List.mem_append.mp h with h | h
        · rw [mem_ite_singleton h]
          rfl
        · rw [mem_ite_singleton h]
          rfl
      · rw [mem_ite_singleton h]
        rfl
    · rw [mem_ite_singleton h]
      rfl

end Coherence

/-- C8 (counterexample): `_convert_analysis_to_result` passes an upstream
end timestamp through without comparing it to the start timestamp — a raw
item with `timestamp_seconds = 10` and `end_timestamp_seconds = 5` yields a
flag whose `endTimestamp` (5) is smaller than its `timestamp` (10). -/
theorem C8_counterexample :
    (Coherence.vsConvertOne 0 Coherence.invertedSpanRaw).timestamp = 10 ∧
    (Coherence.vsConvertOne 0 Coherence.invertedSpanRaw).endTimestamp
        = some 5 ∧
    ¬ Coherence.flagEndOk (Coherence.vsConvertOne 0 Coherence.invertedSpanRaw) := by
  refine ⟨by decide, by decide, fun h => ?_⟩
  have h5 : (5 : ℚ) ∈ (Coherence.vsConvertOne 0 Coherence.invertedSpanRaw).endTimestamp := by
    decide
  have := h 5 h5
  rw [show (Coherence.vsConvertOne 0 Coherence.invertedSpanRaw).timestamp = 10
    from by decide] at this
  norm_num at this

/-- C8 (amended): the flags of the mock result and every synthesized
coaching flag satisfy the invariant (`endTimestamp`, when present, is at
least `timestamp`); the converted and preprocessed flags satisfy it exactly
when the raw upstream item's (truthy) end timestamp is at least the flag's
start timestamp — neither normalizer enforces it. -/
theorem C8_end_timestamp_invariant :
    (∀ (i : ℕ) (f : Coherence.RawFlag),
      (∀ e ∈ f.endTimestampSeconds, e ≠ 0 →
        f.timestampSeconds.getD ((i : ℚ) * 30) ≤ e) →
      Coherence.flagEndOk (Coherence.vsConvertOne i f)) ∧
    (∀ fl ∈ Coherence.mockDissonanceFlags, Coherence.flagEndOk fl) ∧
    (∀ (m : Coherence.AnalysisMetrics) (d : ℚ),
      ∀ fl ∈ Coherence.generateCoachingFlags m d, Coherence.flagEndOk fl) ∧
    (∀ (i : ℕ) (f : Coherence.RawFlag) (fl : Coherence.DissonanceFlag),
      Coherence.ppParseFlag i f = some fl →
      (∀ e ∈ Coherence.ppEndTimestamp f, Coherence.ppTimestamp f ≤ e) →
      Coherence.flagEndOk fl) := by
  refine ⟨?_, ?_, ?_, ?_⟩
  · intro i f h e he
    simp only [Coherence.vsConvertOne] at he ⊢
    rcases hfe : f.endTimestampSeconds with _ | x
    · simp [Coherence.truthyQ, hfe] at he
    · by_cases hx : x = 0
      · simp [Coherence.truthyQ, hfe, hx] at he
      · simp [Coherence.truthyQ, hfe, hx] at he
        subst he
        exact h x (by simp [hfe]) hx
  · intro fl hfl
    fin_cases hfl <;> intro e he <;> simp at he <;> subst he <;> norm_num
  · intro m d fl hfl e he
    rw [Coherence.generateCoachingFlags_end_none m d fl hfl] at he
    simp at he
  · intro i f fl hp hts e he
    unfold Coherence.ppParseFlag at hp
    rcases hd : Coherence.parseDissonanceType
        (f.typeKey.getD "EMOTIONAL_MISMATCH") with _ | t
    · rw [hd] at hp
      simp at hp
    rcases hs : Coherence.parseSeverity (f.severityKey.getD "MEDIUM")
        with _ | sv
    · rw [hd, hs] at hp
      simp at hp
    rw [hd, hs] at hp
    simp only [Option.some.injEq] at hp
    subst hp
    exact hts e he

/-- C8 witness: the converter conjunct applied to an item carrying no end
timestamp, and the mock conjunct at the first mock flag. -/
theorem C8_end_timestamp_invariant_witness :
    Coherence.flagEndOk (Coherence.vsConvertOne 0 Coherence.emptyRawFlag) ∧
    Coherence.flagEndOk
      { id := "flag-1", timestamp := 452 / 10, endTimestamp := some 48,
        type := Coherence.DissonanceType.emotionalMismatch,
        severity := Coherence.Severity.high,
        description := "Said \"thrilled to present\" but facial expression showed anxiety",
        coaching := "Practice saying this line while smiling in a mirror. Your face should match your excitement.",
        visualEvidence := some "TwelveLabs: \"person looking anxious\" at 0:43-0:48",
        verbalEvidence := some "Deepgram: \"thrilled\" (positive sentiment)" } :=
  ⟨C8_end_timestamp_invariant.1 0 Coherence.emptyRawFlag
      (by intro e he _; simp [Coherence.emptyRawFlag] at he),
    C8_end_timestamp_invariant.2.1 _ (by simp [Coherence.mockDissonanceFlags])⟩

/-- C9 (counterexample): `_process_video` has a second path to the `Error`
status — when the video metadata is missing it writes an `Error` record
with stage `"Video not found"` without any exception being raised, so the
uncaught-exception handler is not the only condition producing `Error`. -/
theorem C9_counterexample :
    (Coherence.processVideoWrite
        (Coherence.ProcessVideoWrite.metadataMissing "vid-1")).status
      = Coherence.ProcessingStatus.error ∧
    (Coherence.processVideoWrite
        (Coherence.ProcessVideoWrite.metadataMissing "vid-1")).stage
      = "Video not found" ∧
    "Video not found" ≠ "Processing failed" := by
  refine ⟨rfl, rfl, by decide⟩

/-- C9 (amended): `_process_video` writes an `Error` status in exactly two
cases — the missing-metadata guard at the start of the run (progress 0,
stage `"Video not found"`, error `"Video metadata not found"`), and the
top-level exception handler (progress 0, stage `"Processing failed"`, the
exception's message verbatim in the error field); the checkpoint updates
through `_update_status` never produce `Error`. -/
theorem C9_error_paths :
    (∀ w : Coherence.ProcessVideoWrite,
      (Coherence.processVideoWrite w).status = Coherence.ProcessingStatus.error
        ↔ ((∃ v, w = Coherence.ProcessVideoWrite.metadataMissing v) ∨
            (∃ v msg, w = Coherence.ProcessVideoWrite.exceptionCaught v msg))) ∧
    (∀ v msg, Coherence.processVideoWrite
        (Coherence.ProcessVideoWrite.exceptionCaught v msg)
      = { videoId := v, status := Coherence.ProcessingStatus.error,
          progress := 0, stage := "Processing failed", etaSeconds := none,
          error := some msg }) ∧
    (∀ v, Coherence.processVideoWrite
        (Coherence.ProcessVideoWrite.metadataMissing v)
      = { videoId := v, status := Coherence.ProcessingStatus.error,
          progress := 0, stage := "Video not found", etaSeconds := none,
          error := some "Video metadata not found" }) := by
  refine ⟨?_, fun v msg => rfl, fun v => rfl⟩
  intro w
  cases w with
  | metadataMissing v =>
    simp [Coherence.processVideoWrite]
  | stageUpdate v p s e =>
    simp only [Coherence.processVideoWrite, Coherence.update_status]
    constructor
    · intro h
      rcases lt_or_le p 100 with hp | hp
      · rw [if_pos hp] at h
        exact absurd h (by simp)
      · rw [if_neg (not_lt.mpr hp)] at h
        exact absurd h (by simp)
    · rintro (⟨v', hv⟩ | ⟨v', msg', hv⟩) <;> exact absurd hv (by simp)
  | exceptionCaught v msg =>
    simp [Coherence.processVideoWrite]

/-- C10: the records written through `_update_status` carry status
`Complete` exactly at progress 100 (every call site passes a progress of at
most 100), and status `Processing` exactly below 100 — so no record from
this helper pairs `Complete` with progress below 100 or `Processing` with
progress 100. -/
theorem C10_status_progress :
    (∀ p : ℤ, p ∈ Coherence.updateStatusCallSites.map Prod.fst → p ≤ 100) ∧
    (∀ (v : String) (p : ℤ) (s : String) (e : Option ℤ), p ≤ 100 →
      ((Coherence.update_status v p s e).status
          = Coherence.ProcessingStatus.complete ↔ p = 100)) ∧
    (∀ (v : String) (p : ℤ) (s : String) (e : Option ℤ),
      (Coherence.update_status v p s e).status
          = Coherence.ProcessingStatus.processing ↔ p < 100) := by
  refine ⟨?_, ?_, ?_⟩
  · intro p hp
    simp [Coherence.updateStatusCallSites] at hp
    rcases hp with h | h | h | h | h | h | h | h | h | h <;> omega
  · intro v p s e hp
    simp only [Coherence.update_status]
    rcases lt_or_le p 100 with h | h
    · rw [if_pos h]
      constructor
      · intro hc
        exact absurd hc (by simp)
      · intro h100
        omega
    · rw [if_neg (not_lt.mpr h)]
      constructor
      · intro _
        omega
      · intro _
        rfl
  · intro v p s e
    simp only [Coherence.update_status]
    rcases lt_or_le p 100 with h | h
    · rw [if_pos h]
      simp [h]
    · rw [if_neg (not_lt.mpr h)]
      constructor
      · intro hc
        exact absurd hc (by simp)
      · intro hlt
        omega

/-- C10 witness: the completion call site (progress 100) and a mid-run
call site (progress 70). -/
theorem C10_status_progress_witness :
    ((100 : ℤ) ≤ 100) ∧
    ((Coherence.update_status "v" 100 "Analysis complete!" none).status
        = Coherence.ProcessingStatus.complete ↔ (100 : ℤ) = 100) ∧
    ((Coherence.update_status "v" 70 "Merging analysis results..."
        (some 20)).status
      = Coherence.ProcessingStatus.processing ↔ (70 : ℤ) < 100) :=
  ⟨C10_status_progress.1 100 (by decide),
    C10_status_progress.2.1 "v" 100 "Analysis complete!" none (by decide),
    C10_status_progress.2.2 "v" 70 "Merging analysis results..." (some 20)⟩

/-- C9 witness: the exception-handler conjunct at a concrete message. -/
theorem C9_error_paths_witness :
    Coherence.processVideoWrite
        (Coherence.ProcessVideoWrite.exceptionCaught "vid-2" "boom")
      = { videoId := "vid-2", status := Coherence.ProcessingStatus.error,
          progress := 0, stage := "Processing failed", etaSeconds := none,
          error := some "boom" } :=
  C9_error_paths.2.1 "vid-2" "boom"
